import Mathlib

/-!
Shallow embedding of the frontend of the medical-image-diagnostic-assistant
repository, together with theorems settling the frozen claims about it.

The embedded code is the React frontend: the upload page (`Dashboard.js`,
`Upload` component), the authentication context (`AuthContext.js`), the shared
axios api client and service layer (`services/api.js`), the route guard and
user-management page (`App.js`, `UserManagement.js`), and the
prediction-detail page (`PredictionDetail.js`).

Modelling conventions:
- Component state is an explicit record; a handler is a function from state
  (and its input) to the new state plus its observable effects.
- JS strings are `String`, JS numbers used as sizes/ids are `Nat`, and the
  numeric confidences compared by the sort comparator are `ℚ` (the model
  confidences are plain finite decimals in [0,1], on which IEEE comparison
  agrees with the rational order).
- An absent / `null` / `undefined` JS value is `Option.none`; JS truthiness
  on strings (empty string is falsy) is modelled explicitly where the source
  relies on it (`detail || 'Login failed'`).
-/

namespace MedApp

/-- HTTP method of a request issued by the frontend service layer. -/
inductive Method where
  | get
  | post
  | put
  | delete
  deriving DecidableEq, Repr

/-! ### Upload page (`Upload` component in `Dashboard.js`) -/

/-- Metadata of a file selected in the dropzone: `name`, MIME `type`
and `size` in bytes, as read by `onDrop` from `acceptedFiles[0]`. -/
structure FileMeta where
  name : String
  type : String
  size : Nat
  deriving DecidableEq, Repr

/-- The component state touched by `onDrop`: the selected `file` and the
`preview` object URL. -/
structure UploadState where
  file : Option FileMeta
  preview : Option String
  deriving DecidableEq, Repr

/-- Model of `URL.createObjectURL(selectedFile)`: produces a preview URL for
the selected file. -/
def createObjectURL (f : FileMeta) : String :=
  "blob:" ++ f.name

/-- `onDrop` from `Dashboard.js` (Upload component): rejects a non-image MIME
type with a toast, rejects a file larger than `16 * 1024 * 1024` bytes with a
toast, and otherwise stores the file and its preview URL in component state.
Returns the new state and the toast error message, if any. -/
def onDrop (s : UploadState) (selectedFile : FileMeta) :
    UploadState × Option String :=
  if ¬ selectedFile.type.startsWith "image/" then
    (s, some "Please upload a valid image file")
  else if selectedFile.size > 16 * 1024 * 1024 then
    (s, some "File size exceeds 16MB limit")
  else
    ({ file := some selectedFile,
       preview := some (createObjectURL selectedFile) }, none)

/-- The file `handleUpload` sends to `imageService.uploadImage`: it returns
early (no request) when no file is selected, and otherwise uploads exactly
the file held in component state. -/
def handleUploadFile (s : UploadState) : Option FileMeta :=
  s.file

/-- `getModelNameForImageType` from `Dashboard.js`: maps the selected image
type to a model name. -/
def getModelNameForImageType (t : String) : String :=
  if t = "x-ray" then "chest-xray"
  else if t = "brain-mri" then "brain-mri"
  else "chest-xray"

/-- The image-type values selectable in the upload page dropdown. -/
def imageTypeOptions : List String :=
  ["x-ray", "ct-scan", "mri", "brain-mri", "ultrasound"]

/-- Body of the `predictionService.createPrediction` call issued by
`handleUpload`. -/
structure PredictionRequestBody where
  image_id : Nat
  model_name : String
  deriving DecidableEq, Repr

/-- The prediction request `handleUpload` issues after a successful upload:
the uploaded image id together with the model chosen for the selected image
type. -/
def handleUploadPredictionRequest (imageId : Nat) (imageType : String) :
    PredictionRequestBody :=
  { image_id := imageId, model_name := getModelNameForImageType imageType }

/-! ### Authentication context (`AuthContext.js`) -/

/-- Body of an error response (`error.response.data`), carrying an optional
`detail` field. -/
structure ErrData where
  detail : Option String
  deriving DecidableEq, Repr

/-- An error response (`error.response`); `data` is `none` when the response
carries no (truthy) body. -/
structure ErrResponse where
  data : Option ErrData
  deriving DecidableEq, Repr

/-- A rejected request: `response` is `none` for network errors that produced
no HTTP response at all. -/
structure LoginFailure where
  response : Option ErrResponse
  deriving DecidableEq, Repr

/-- Successful `/auth/token` response data. -/
structure TokenData where
  access_token : String
  user_id : Nat
  username : String
  role : String
  deriving DecidableEq, Repr

/-- The user record the auth context keeps in state. -/
structure UserInfo where
  id : Nat
  username : String
  role : String
  deriving DecidableEq, Repr

/-- Result of the `login` function: what it wrote to localStorage, the
resulting context state, and its return value. -/
structure LoginResult where
  storedToken : Option String
  user : Option UserInfo
  isAuthenticated : Bool
  authError : Option String
  success : Bool
  returnedError : Option String
  deriving DecidableEq, Repr

/-- JS `x || fallback` on an optional string field: `undefined` and the empty
string are both falsy and select the fallback. -/
def jsOrElse (x : Option String) (fallback : String) : String :=
  match x with
  | some s => if s = "" then fallback else s
  | none => fallback

/-- The error message computed in the `catch` branch of `login`:
`error.response && error.response.data` selects
`error.response.data.detail || 'Login failed'`, anything else selects the
network-error fallback. -/
def loginErrorMessage (e : LoginFailure) : String :=
  match e.response with
  | some r =>
    match r.data with
    | some d => jsOrElse d.detail "Login failed"
    | none => "Network error. Please try again."
  | none => "Network error. Please try again."

/-- The `login` function of `AuthContext.js`, as a function of the outcome of
the POST to `/auth/token`: on success it stores the token, sets the user and
returns success; on failure it stores nothing, leaves the user unset, records
the error message in `authError` and returns it with `success = false`. -/
def login (outcome : Except LoginFailure TokenData) : LoginResult :=
  match outcome with
  | .ok t =>
    { storedToken := some t.access_token
      user := some { id := t.user_id, username := t.username, role := t.role }
      isAuthenticated := true
      authError := none
      success := true
      returnedError := none }
  | .error e =>
    { storedToken := none
      user := none
      isAuthenticated := false
      authError := some (loginErrorMessage e)
      success := false
      returnedError := some (loginErrorMessage e) }

/-- The `detail` field reachable from a login failure, when every level of
`error.response.data.detail` is present. -/
def failureDetail (e : LoginFailure) : Option String :=
  (e.response.bind ErrResponse.data).bind ErrData.detail

/-- The error message the claim (as amended) attributes to a failed login:
the `detail` field when present and non-empty, the `Login failed` fallback
when a response body exists without a usable detail, and the network-error
fallback when no response body exists. -/
def claimedLoginError (e : LoginFailure) : String :=
  match failureDetail e with
  | some d => if d ≠ "" then d else "Login failed"
  | none =>
    match e.response.bind ErrResponse.data with
    | some _ => "Login failed"
    | none => "Network error. Please try again."

/-! ### Shared api client (`services/api.js`, response interceptors) -/

/-- A rejected api response as the error interceptor sees it:
`status` is `error.response.status` when `error.response` exists. -/
structure ApiError where
  status : Option Nat
  deriving DecidableEq, Repr

/-- What the response error interceptor does with a rejected request. -/
inductive ErrorAction where
  | reject (clearedToken : Bool) (redirect : Option String)
  | reissue
  deriving DecidableEq, Repr

/-- The rejection handler of `api.interceptors.response.use`: on 401 it
removes the stored token, redirects the browser to `/login` and still rejects
with the original error; on 307/308 it re-issues the original request through
`api`; otherwise it rejects with the original error untouched. -/
def responseErrorInterceptor (e : ApiError) : ErrorAction :=
  match e.status with
  | some s =>
    if s = 401 then .reject true (some "/login")
    else if s = 307 ∨ s = 308 then .reissue
    else .reject false none
  | none => .reject false none

/-- What the fulfilled-response interceptor does with a response. -/
inductive SuccessAction where
  | pass
  | reissue
  deriving DecidableEq, Repr

/-- The fulfilled handler of `api.interceptors.response.use`: a 307/308
response is re-issued, anything else is passed through. -/
def responseSuccessInterceptor (status : Nat) : SuccessAction :=
  if status = 307 ∨ status = 308 then .reissue else .pass

/-! ### Route guard and user-management page (`App.js`, `UserManagement.js`) -/

/-- Auth-context state consumed by `ProtectedRoute`. -/
structure AuthState where
  user : Option UserInfo
  isAuthenticated : Bool
  isLoading : Bool
  deriving DecidableEq, Repr

/-- What `ProtectedRoute` renders. -/
inductive RouteResult where
  | loading
  | navigate (dest : String)
  | children
  deriving DecidableEq, Repr

/-- `ProtectedRoute` from `App.js`: shows the loading screen while auth state
loads, navigates to `/login` when unauthenticated, navigates to `/dashboard`
when a required role is set and the user's role differs, and otherwise
renders the children. The result is `none` exactly when the source would
dereference `user.role` on a `null` user. -/
def protectedRoute (auth : AuthState) (requiredRole : Option String) :
    Option RouteResult :=
  if auth.isLoading then some .loading
  else if ¬ auth.isAuthenticated then some (.navigate "/login")
  else
    match requiredRole with
    | some r =>
      auth.user.map fun u => if u.role ≠ r then .navigate "/dashboard" else .children
    | none => some .children

/-- The `enabled` option of the `users` query in `UserManagement.js`:
`!!user && user.role === 'admin'`. -/
def usersQueryEnabled (user : Option UserInfo) : Bool :=
  match user with
  | some u => u.role == "admin"
  | none => false

/-- What the `UserManagement` page body renders. -/
inductive UsersPageView where
  | accessDenied
  | managementUI
  deriving DecidableEq, Repr

/-- The access gate at the top of `UserManagement`'s render:
`if (user && user.role !== 'admin') return <AccessDenied/>`. -/
def userManagementView (user : Option UserInfo) : UsersPageView :=
  match user with
  | some u => if u.role ≠ "admin" then .accessDenied else .managementUI
  | none => .managementUI

/-! ### Frontend mutations and the query cache
(`UserManagement.js`, `PredictionDetail.js`) -/

/-- The observable `onSuccess` behaviour of a `useMutation` call: the success
toast it shows and the query keys it passes to
`queryClient.invalidateQueries`. Composite react-query keys such as
`['feedback', id]` are identified by their leading name. -/
structure MutationConfig where
  successToast : String
  invalidates : List String
  deriving DecidableEq, Repr

/-- `addUserMutation` from `UserManagement.js`. -/
def addUserMutation : MutationConfig :=
  { successToast := "User created successfully", invalidates := ["users"] }

/-- `updateUserMutation` from `UserManagement.js`. -/
def updateUserMutation : MutationConfig :=
  { successToast := "User updated successfully", invalidates := ["users"] }

/-- `deleteUserMutation` from `UserManagement.js`. -/
def deleteUserMutation : MutationConfig :=
  { successToast := "User deleted successfully", invalidates := ["users"] }

/-- `submitFeedbackMutation` from `PredictionDetail.js`: its `onSuccess` only
shows a toast and invalidates no query key. -/
def submitFeedbackMutation : MutationConfig :=
  { successToast := "Feedback submitted successfully", invalidates := [] }

/-- `generateReportMutation` from `PredictionDetail.js`: its `onSuccess` only
shows a toast and invalidates no query key. -/
def generateReportMutation : MutationConfig :=
  { successToast :=
      "Report generation started. It will be available in the Reports section soon."
    invalidates := [] }

/-- A query cache: cached value per query key. -/
abbrev QueryCache := List (String × Nat)

/-- `queryClient.invalidateQueries` over a list of keys: drops the cached
entries for those keys. -/
def invalidateKeys (cache : QueryCache) (keys : List String) : QueryCache :=
  cache.filter fun kv => !(keys.contains kv.1)

/-- The cache after a mutation succeeds: its `onSuccess` invalidates exactly
the keys recorded in its configuration. -/
def afterMutation (cache : QueryCache) (m : MutationConfig) : QueryCache :=
  invalidateKeys cache m.invalidates

/-- A read through the query cache: a cached entry is served as-is, a missing
entry is refetched from the server. -/
def cachedRead (cache : QueryCache) (server : String → Nat) (key : String) :
    Nat :=
  match cache.find? (fun kv => kv.1 == key) with
  | some kv => kv.2
  | none => server key

/-! ### Service layer (`services/api.js`)

Each service function builds its URL from a fixed template; `ApiPath` is the
template structure and `ApiPath.render` produces exactly the literal path the
source interpolates. -/

/-- The path templates occurring in `services/api.js`. An `id` is the string
interpolated into the template (`/feedback/${id}` and so on). -/
inductive ApiPath where
  | authToken
  | authMe
  | authVerifyToken
  | imagesColl
  | imagesItem (id : String)
  | imagesUpload
  | predictionsColl
  | predictionsItem (id : String)
  | feedbackColl
  | feedbackItem (id : String)
  | reportsColl
  | reportsItem (id : String)
  | usersColl
  | usersItem (id : String)
  deriving DecidableEq, Repr

/-- The literal path each template renders to in `services/api.js`. -/
def ApiPath.render : ApiPath → String
  | .authToken => "/auth/token"
  | .authMe => "/auth/me"
  | .authVerifyToken => "/auth/verify-token"
  | .imagesColl => "/images/"
  | .imagesItem id => "/images/" ++ id
  | .imagesUpload => "/images/upload"
  | .predictionsColl => "/predictions/"
  | .predictionsItem id => "/predictions/" ++ id
  | .feedbackColl => "/feedback/"
  | .feedbackItem id => "/feedback/" ++ id
  | .reportsColl => "/reports/"
  | .reportsItem id => "/reports/" ++ id
  | .usersColl => "/users/"
  | .usersItem id => "/users/" ++ id

/-- A request issued by the service layer: method, path template, optional
query string. -/
structure Request where
  method : Method
  path : ApiPath
  query : Option String
  deriving DecidableEq, Repr

/-- The URL the request targets, as interpolated by the source. -/
def Request.url (r : Request) : String :=
  match r.query with
  | some q => r.path.render ++ "?" ++ q
  | none => r.path.render

/-- `authService.login`: `api.post('/auth/token', formData, ...)`. -/
def loginRequest : Request := ⟨.post, .authToken, none⟩

/-- `authService.getCurrentUser`: `api.get('/auth/me')`. -/
def getCurrentUserRequest : Request := ⟨.get, .authMe, none⟩

/-- `authService.verifyToken`: `api.post('/auth/verify-token')`. -/
def verifyTokenRequest : Request := ⟨.post, .authVerifyToken, none⟩

/-- `predictionService.getPredictions(limit)`. -/
def getPredictionsRequest (limit : Nat) : Request :=
  ⟨.get, .predictionsColl, some ("limit=" ++ toString limit)⟩

/-- `predictionService.getPrediction(id)`. -/
def getPredictionRequest (id : String) : Request :=
  ⟨.get, .predictionsItem id, none⟩

/-- `predictionService.createPrediction(data)`. -/
def createPredictionRequest : Request := ⟨.post, .predictionsColl, none⟩

/-- `imageService.getImages(limit)`. -/
def getImagesRequest (limit : Nat) : Request :=
  ⟨.get, .imagesColl, some ("limit=" ++ toString limit)⟩

/-- `imageService.getImage(id)`. -/
def getImageRequest (id : String) : Request := ⟨.get, .imagesItem id, none⟩

/-- `imageService.uploadImage(formData)`: `api.post('/images/upload', ...)`. -/
def uploadImageRequest : Request := ⟨.post, .imagesUpload, none⟩

/-- `feedbackService.getFeedback(id)`. -/
def getFeedbackRequest (id : String) : Request := ⟨.get, .feedbackItem id, none⟩

/-- `feedbackService.createFeedback(data)`: `api.post('/feedback/', data)`. -/
def createFeedbackRequest : Request := ⟨.post, .feedbackColl, none⟩

/-- `feedbackService.updateFeedback(id, data)`. -/
def updateFeedbackRequest (id : String) : Request :=
  ⟨.put, .feedbackItem id, none⟩

/-- `feedbackService.deleteFeedback(id)`. -/
def deleteFeedbackRequest (id : String) : Request :=
  ⟨.delete, .feedbackItem id, none⟩

/-- `reportService.getReports(limit)`. -/
def getReportsRequest (limit : Nat) : Request :=
  ⟨.get, .reportsColl, some ("limit=" ++ toString limit)⟩

/-- `reportService.getReport(id)`. -/
def getReportRequest (id : String) : Request := ⟨.get, .reportsItem id, none⟩

/-- `reportService.createReport(data)`. -/
def createReportRequest : Request := ⟨.post, .reportsColl, none⟩

/-- `userService.getUsers(limit)`. -/
def getUsersRequest (limit : Nat) : Request :=
  ⟨.get, .usersColl, some ("limit=" ++ toString limit)⟩

/-- `userService.getUser(id)`. -/
def getUserRequest (id : String) : Request := ⟨.get, .usersItem id, none⟩

/-- `userService.createUser(data)`. -/
def createUserRequest : Request := ⟨.post, .usersColl, none⟩

/-- `userService.updateUser(id, data)`. -/
def updateUserRequest (id : String) : Request := ⟨.put, .usersItem id, none⟩

/-- `userService.deleteUser(id)`. -/
def deleteUserRequest (id : String) : Request := ⟨.delete, .usersItem id, none⟩

/-- Transcription of the endpoint list of spec section 6 (EXTERNAL
INTERFACES), for comparison with the requests the source issues:
`/auth/token` POST, `/auth/me`, `/images/` GET and POST upload,
`/images/{id}`, `/predictions/` GET and POST, `/predictions/{id}`,
`/feedback/{id}` GET/POST/PUT/DELETE, `/reports/` GET and POST, and
`/users/` GET/POST/PUT/DELETE. The `/users/` row is read as the usual CRUD
shorthand covering both the collection route and the `/users/{id}` item
routes, since PUT and DELETE make no sense on the bare collection; every
other row is read literally. Query strings are not part of the listing. -/
def specSection6Allows (m : Method) (p : ApiPath) : Bool :=
  match m, p with
  | .post, .authToken => true
  | .get, .authMe => true
  | .get, .imagesColl => true
  | .post, .imagesColl => true
  | .get, .imagesItem _ => true
  | .get, .predictionsColl => true
  | .post, .predictionsColl => true
  | .get, .predictionsItem _ => true
  | .get, .feedbackItem _ => true
  | .post, .feedbackItem _ => true
  | .put, .feedbackItem _ => true
  | .delete, .feedbackItem _ => true
  | .get, .reportsColl => true
  | .post, .reportsColl => true
  | .get, .usersColl => true
  | .post, .usersColl => true
  | .get, .usersItem _ => true
  | .put, .usersItem _ => true
  | .delete, .usersItem _ => true
  | _, _ => false

/-! ### Prediction-detail page (`PredictionDetail.js`) -/

/-- The rating values offered by the feedback select element
(`Select a rating` is value 0). -/
def ratingOptions : List Nat := [0, 1, 2, 3, 4, 5]

/-- The feedback-form state relevant to the rating invariant, together with
the ratings of the submissions the form has issued. -/
structure FeedbackFormState where
  rating : Nat
  submittedRatings : List Nat
  deriving DecidableEq, Repr

/-- Initial feedback-form state: `rating: 0`, nothing submitted. -/
def initialFeedbackForm : FeedbackFormState :=
  { rating := 0, submittedRatings := [] }

/-- Events the feedback form reacts to: choosing a rating in the select
element (only the offered option values can be chosen; `handleFeedbackChange`
stores `parseInt(value)`), and pressing the submit button (which is disabled
while `feedbackData.rating === 0`). -/
inductive FeedbackEvent where
  | setRating (v : Nat)
  | submit
  deriving DecidableEq, Repr

/-- One step of the feedback form. A `setRating` outside the offered options
cannot happen through the select element and leaves the state unchanged; a
`submit` while the button is disabled (`rating === 0`) issues nothing. -/
def feedbackStep (s : FeedbackFormState) (e : FeedbackEvent) :
    FeedbackFormState :=
  match e with
  | .setRating v => if v ∈ ratingOptions then { s with rating := v } else s
  | .submit =>
    if s.rating = 0 then s
    else { s with submittedRatings := s.rating :: s.submittedRatings }

/-- The feedback form state after a sequence of events from the initial
state. -/
def runFeedbackForm (es : List FeedbackEvent) : FeedbackFormState :=
  es.foldl feedbackStep initialFeedbackForm

/-- The comparator order of `sortedPredictions`: the JS comparator
`(a, b) => b[1] - a[1]` puts `a` before `b` exactly when `b`'s confidence is
at most `a`'s. -/
def confDesc (a b : String × ℚ) : Prop := b.2 ≤ a.2

instance : DecidableRel confDesc :=
  fun a b => inferInstanceAs (Decidable (b.2 ≤ a.2))

instance : IsTotal (String × ℚ) confDesc :=
  ⟨fun a b => (le_total b.2 a.2).elim Or.inl Or.inr⟩

instance : IsTrans (String × ℚ) confDesc :=
  ⟨fun _ _ _ hab hbc => le_trans hbc hab⟩

/-- `sortedPredictions` from `PredictionDetail.js`:
`Object.entries(prediction.prediction_data).sort((a, b) => b[1] - a[1])`,
i.e. the label/confidence entries sorted by descending confidence. -/
def sortedPredictions (data : List (String × ℚ)) : List (String × ℚ) :=
  data.insertionSort confDesc

/-! ## Claims -/

/-- C1: for every file selected in the upload page whose size exceeds
`16 * 1024 * 1024` bytes, `onDrop` rejects it: the selected-file and preview
state are left unchanged, an error toast is shown, and the file that
`handleUpload` would upload is still not the oversized file, so no upload
request is ever issued for it. -/
theorem c1_oversize_file_rejected (s : UploadState) (f : FileMeta)
    (hsize : f.size > 16 * 1024 * 1024) (hnew : s.file ≠ some f) :
    (onDrop s f).1 = s ∧ (onDrop s f).2.isSome = true ∧
      handleUploadFile (onDrop s f).1 ≠ some f := by
  unfold onDrop handleUploadFile
  by_cases htype : f.type.startsWith "image/"
  · simp [htype, hsize, hnew]
  · simp [htype, hnew]

/-- Witness for C1 at a concrete oversized file. -/
theorem c1_witness :
    (onDrop ⟨none, none⟩ ⟨"big.png", "image/png", 17000000⟩).1 = ⟨none, none⟩ ∧
    (onDrop ⟨none, none⟩ ⟨"big.png", "image/png", 17000000⟩).2.isSome = true ∧
    handleUploadFile (onDrop ⟨none, none⟩ ⟨"big.png", "image/png", 17000000⟩).1 ≠
      some ⟨"big.png", "image/png", 17000000⟩ :=
  c1_oversize_file_rejected ⟨none, none⟩ ⟨"big.png", "image/png", 17000000⟩
    (by decide) (by decide)

/-- C2 counterexample: a failed login whose response carries a present but
empty `detail` field does not surface that detail: the source computes
`detail || 'Login failed'`, so the auth error is the fallback, not the
present detail. This refutes the claim that the auth error is set to the
detail field whenever it is present. -/
theorem c2_counterexample :
    (failureDetail ⟨some ⟨some ⟨some ""⟩⟩⟩).isSome = true ∧
    (login (.error ⟨some ⟨some ⟨some ""⟩⟩⟩)).authError ≠
      failureDetail ⟨some ⟨some ⟨some ""⟩⟩⟩ := by
  decide

/-- C2 (amended): for every failed login attempt, `login` never stores a
token, leaves the user state unset and unauthenticated, returns
`success = false`, and always surfaces an error message: the response's
`detail` field when present and non-empty, and a fallback message
otherwise. -/
theorem c2_login_failure_behavior (e : LoginFailure) :
    (login (.error e)).storedToken = none ∧
    (login (.error e)).user = none ∧
    (login (.error e)).isAuthenticated = false ∧
    (login (.error e)).success = false ∧
    (login (.error e)).returnedError = (login (.error e)).authError ∧
    (login (.error e)).authError = some (claimedLoginError e) := by
  refine ⟨rfl, rfl, rfl, rfl, rfl, ?_⟩
  show some (loginErrorMessage e) = some (claimedLoginError e)
  congr 1
  obtain ⟨r⟩ := e
  cases r with
  | none => rfl
  | some rr =>
    obtain ⟨d⟩ := rr
    cases d with
    | none => rfl
    | some dd =>
      obtain ⟨det⟩ := dd
      cases det with
      | none => rfl
      | some str =>
        by_cases hs : str = ""
        · subst hs; rfl
        · simp [loginErrorMessage, jsOrElse, claimedLoginError, failureDetail, hs]

/-- C3 counterexample: a failed response with HTTP status 307 (or 308) is not
terminal: the response error interceptor re-issues the original request
itself. -/
theorem c3_counterexample :
    responseErrorInterceptor ⟨some 307⟩ = .reissue ∧
    responseErrorInterceptor ⟨some 308⟩ = .reissue := by
  decide

/-- C3 (amended): for every failed response whose status is not 307 and not
308, the api client never re-issues the request itself; such a failure is
terminal for that request and a retry must be re-initiated by the user. -/
theorem c3_failed_response_terminal (e : ApiError)
    (h307 : e.status ≠ some 307) (h308 : e.status ≠ some 308) :
    responseErrorInterceptor e ≠ .reissue := by
  obtain ⟨st⟩ := e
  cases st with
  | none => simp [responseErrorInterceptor]
  | some s =>
    simp only [Option.some.injEq] at h307 h308
    have hs7 : s ≠ 307 := fun h => h307 (by simpa using h)
    have hs8 : s ≠ 308 := fun h => h308 (by simpa using h)
    by_cases h1 : s = 401
    · simp [responseErrorInterceptor, h1]
    · simp [responseErrorInterceptor, h1, hs7, hs8]

/-- Witness for C3 at a concrete failed response with status 500. -/
theorem c3_witness : responseErrorInterceptor ⟨some 500⟩ ≠ .reissue :=
  c3_failed_response_terminal ⟨some 500⟩ (by decide) (by decide)

/-- C4: every response with HTTP status 401 makes the api client remove the
stored token, redirect the browser to the login page, and still reject with
the original error (so the error is propagated to the caller). -/
theorem c4_unauthorized_clears_and_redirects (e : ApiError)
    (h : e.status = some 401) :
    responseErrorInterceptor e = .reject true (some "/login") := by
  obtain ⟨st⟩ := e
  obtain rfl : st = some 401 := h
  rfl

/-- Witness for C4 at a concrete 401 response. -/
theorem c4_witness :
    responseErrorInterceptor ⟨some 401⟩ = .reject true (some "/login") :=
  c4_unauthorized_clears_and_redirects ⟨some 401⟩ rfl

/-- C5: an authenticated user whose role is not `admin` never reaches the
user list: the `/users` route guard navigates them to the dashboard, the
users query is disabled, and the user-management page body renders the
access-denied message if reached. -/
theorem c5_non_admin_blocked (auth : AuthState) (u : UserInfo)
    (hu : auth.user = some u) (hrole : u.role ≠ "admin")
    (hload : auth.isLoading = false) (hauth : auth.isAuthenticated = true) :
    protectedRoute auth (some "admin") = some (.navigate "/dashboard") ∧
    usersQueryEnabled auth.user = false ∧
    userManagementView auth.user = .accessDenied := by
  refine ⟨?_, ?_, ?_⟩ <;>
    simp [protectedRoute, usersQueryEnabled, userManagementView,
      hu, hrole, hload, hauth]

/-- Witness for C5 at a concrete authenticated doctor. -/
theorem c5_witness :
    protectedRoute ⟨some ⟨2, "drbob", "doctor"⟩, true, false⟩ (some "admin") =
      some (.navigate "/dashboard") ∧
    usersQueryEnabled (AuthState.mk (some ⟨2, "drbob", "doctor"⟩) true false).user =
      false ∧
    userManagementView (AuthState.mk (some ⟨2, "drbob", "doctor"⟩) true false).user =
      .accessDenied :=
  c5_non_admin_blocked ⟨some ⟨2, "drbob", "doctor"⟩, true, false⟩
    ⟨2, "drbob", "doctor"⟩ rfl (by decide) rfl rfl

/-- C6 counterexample: the feedback-submission and report-generation
mutations invalidate no query key on success, so a cached feedback or
reports read after the mutation still serves the stale cached value instead
of refetching. This refutes the claim that every frontend mutation
invalidates the affected query key. -/
theorem c6_counterexample :
    submitFeedbackMutation.invalidates = [] ∧
    generateReportMutation.invalidates = [] ∧
    cachedRead (afterMutation [("feedback", 0)] submitFeedbackMutation)
      (fun _ => 1) "feedback" = 0 ∧
    cachedRead (afterMutation [("reports", 0)] generateReportMutation)
      (fun _ => 1) "reports" = 0 := by
  decide

/-- C6 (amended): the user create/update/delete mutations invalidate the
`users` query key on success, so a subsequent read of `users` through the
cache refetches and reflects the mutation; the feedback-submission and
report-generation mutations invalidate no query key. -/
theorem c6_mutation_invalidation :
    addUserMutation.invalidates = ["users"] ∧
    updateUserMutation.invalidates = ["users"] ∧
    deleteUserMutation.invalidates = ["users"] ∧
    cachedRead (afterMutation [("users", 0)] addUserMutation)
      (fun _ => 1) "users" = 1 ∧
    cachedRead (afterMutation [("users", 0)] updateUserMutation)
      (fun _ => 1) "users" = 1 ∧
    cachedRead (afterMutation [("users", 0)] deleteUserMutation)
      (fun _ => 1) "users" = 1 ∧
    submitFeedbackMutation.invalidates = [] ∧
    generateReportMutation.invalidates = [] := by
  decide

/-- C7 counterexample: image uploads are POSTed to `/images/upload`, not to
the listed `/images/` upload endpoint, and feedback creation is POSTed to
`/feedback/`, not to the listed `/feedback/{id}`; neither request matches
any endpoint of spec section 6. -/
theorem c7_counterexample :
    uploadImageRequest.method = Method.post ∧
    uploadImageRequest.url = "/images/upload" ∧
    specSection6Allows uploadImageRequest.method uploadImageRequest.path =
      false ∧
    createFeedbackRequest.method = Method.post ∧
    createFeedbackRequest.url = "/feedback/" ∧
    specSection6Allows createFeedbackRequest.method createFeedbackRequest.path =
      false := by
  decide

/-- C7 (amended): every request of the frontend service layer targets an
endpoint listed in spec section 6 with the listed method, except for four
request forms: image upload is POSTed to `/images/upload`, feedback creation
is POSTed to `/feedback/`, token verification is POSTed to
`/auth/verify-token`, and single-report fetch GETs `/reports/{id}`; none of
those four targets a listed endpoint. -/
theorem c7_service_endpoints (limit : Nat) (id : String) :
    specSection6Allows loginRequest.method loginRequest.path = true ∧
    specSection6Allows getCurrentUserRequest.method getCurrentUserRequest.path = true ∧
    specSection6Allows (getPredictionsRequest limit).method (getPredictionsRequest limit).path = true ∧
    specSection6Allows (getPredictionRequest id).method (getPredictionRequest id).path = true ∧
    specSection6Allows createPredictionRequest.method createPredictionRequest.path = true ∧
    specSection6Allows (getImagesRequest limit).method (getImagesRequest limit).path = true ∧
    specSection6Allows (getImageRequest id).method (getImageRequest id).path = true ∧
    specSection6Allows (getFeedbackRequest id).method (getFeedbackRequest id).path = true ∧
    specSection6Allows (updateFeedbackRequest id).method (updateFeedbackRequest id).path = true ∧
    specSection6Allows (deleteFeedbackRequest id).method (deleteFeedbackRequest id).path = true ∧
    specSection6Allows (getReportsRequest limit).method (getReportsRequest limit).path = true ∧
    specSection6Allows createReportRequest.method createReportRequest.path = true ∧
    specSection6Allows (getUsersRequest limit).method (getUsersRequest limit).path = true ∧
    specSection6Allows (getUserRequest id).method (getUserRequest id).path = true ∧
    specSection6Allows createUserRequest.method createUserRequest.path = true ∧
    specSection6Allows (updateUserRequest id).method (updateUserRequest id).path = true ∧
    specSection6Allows (deleteUserRequest id).method (deleteUserRequest id).path = true ∧
    uploadImageRequest.url = "/images/upload" ∧
    specSection6Allows uploadImageRequest.method uploadImageRequest.path = false ∧
    createFeedbackRequest.url = "/feedback/" ∧
    specSection6Allows createFeedbackRequest.method createFeedbackRequest.path = false ∧
    verifyTokenRequest.url = "/auth/verify-token" ∧
    specSection6Allows verifyTokenRequest.method verifyTokenRequest.path = false ∧
    (getReportRequest id).url = "/reports/" ++ id ∧
    specSection6Allows (getReportRequest id).method (getReportRequest id).path = false := by
  exact ⟨rfl, rfl, rfl, rfl, rfl, rfl, rfl, rfl, rfl, rfl, rfl, rfl, rfl,
    rfl, rfl, rfl, rfl, rfl, rfl, rfl, rfl, rfl, rfl, rfl, rfl⟩

/-- Invariant of the feedback form: the current rating is one of the offered
option values, and every rating submitted so far lies in `[1, 5]`. -/
def FeedbackFormState.good (s : FeedbackFormState) : Prop :=
  s.rating ≤ 5 ∧ ∀ r ∈ s.submittedRatings, 1 ≤ r ∧ r ≤ 5

theorem feedbackStep_good (s : FeedbackFormState) (e : FeedbackEvent)
    (hs : s.good) : (feedbackStep s e).good := by
  obtain ⟨hrat, hsub⟩ := hs
  cases e with
  | setRating v =>
    by_cases hv : v ∈ ratingOptions
    · have hv5 : v ≤ 5 := by
        simp only [ratingOptions, List.mem_cons, List.not_mem_nil, or_false] at hv
        rcases hv with rfl | rfl | rfl | rfl | rfl | rfl <;> decide
      simp only [feedbackStep, if_pos hv]
      exact ⟨hv5, hsub⟩
    · simpa only [feedbackStep, if_neg hv] using ⟨hrat, hsub⟩
  | submit =>
    by_cases h0 : s.rating = 0
    · simpa only [feedbackStep, if_pos h0] using ⟨hrat, hsub⟩
    · simp only [feedbackStep, if_neg h0]
      refine ⟨hrat, fun r hr => ?_⟩
      rcases List.mem_cons.mp hr with rfl | hr
      · exact ⟨Nat.one_le_iff_ne_zero.mpr h0, hrat⟩
      · exact hsub r hr

theorem foldl_feedbackStep_good (es : List FeedbackEvent)
    (s : FeedbackFormState) (hs : s.good) :
    (es.foldl feedbackStep s).good := by
  induction es generalizing s with
  | nil => exact hs
  | cons e es ih => exact ih _ (feedbackStep_good s e hs)

/-- C8: every feedback submission the prediction-detail form issues carries a
rating between 1 and 5 inclusive: the select element offers only the integer
values 0 through 5, and the submit button is disabled while the rating is 0,
so no sequence of form events can issue a submission with a rating outside
`[1, 5]`. -/
theorem c8_rating_range (es : List FeedbackEvent) (r : Nat)
    (hr : r ∈ (runFeedbackForm es).submittedRatings) : 1 ≤ r ∧ r ≤ 5 := by
  have h := foldl_feedbackStep_good es initialFeedbackForm
    ⟨by decide, by intro r hr; simp [initialFeedbackForm] at hr⟩
  exact h.2 r hr

/-- Witness for C8 at a concrete event sequence that selects rating 3 and
submits. -/
theorem c8_witness : 1 ≤ 3 ∧ 3 ≤ 5 :=
  c8_rating_range [.setRating 3, .submit] 3 (by decide)

/-- C9: for every label-to-confidence mapping, the list built by
`sortedPredictions` is a permutation of the mapping's entries and each
entry's confidence is at least the next entry's confidence (the entries are
in non-increasing order of confidence). -/
theorem c9_sorted_predictions (data : List (String × ℚ)) :
    (sortedPredictions data).Perm data ∧
    (sortedPredictions data).Pairwise (fun a b => b.2 ≤ a.2) :=
  ⟨List.perm_insertionSort confDesc data,
   List.sorted_insertionSort confDesc data⟩

/-- C10: for every image type selectable on the upload page, the prediction
request issued after upload names the `brain-mri` model if and only if the
selected type is `brain-mri`; every other selectable type is sent to the
`chest-xray` model. -/
theorem c10_model_selection (imageId : Nat) (t : String)
    (ht : t ∈ imageTypeOptions) :
    ((handleUploadPredictionRequest imageId t).model_name = "brain-mri" ↔
      t = "brain-mri") ∧
    (t ≠ "brain-mri" →
      (handleUploadPredictionRequest imageId t).model_name = "chest-xray") := by
  simp only [imageTypeOptions, List.mem_cons, List.not_mem_nil, or_false] at ht
  rcases ht with rfl | rfl | rfl | rfl | rfl <;>
    simp [handleUploadPredictionRequest, getModelNameForImageType]

/-- Witness for C10 at the concrete selectable type `ct-scan`. -/
theorem c10_witness :
    ((handleUploadPredictionRequest 1 "ct-scan").model_name = "brain-mri" ↔
      "ct-scan" = "brain-mri") ∧
    ("ct-scan" ≠ "brain-mri" →
      (handleUploadPredictionRequest 1 "ct-scan").model_name = "chest-xray") :=
  c10_model_selection 1 "ct-scan" (by decide)

end MedApp





